import Mathlib

set_option maxHeartbeats 1000000

/-!
Verification development for the Kelanzynatty media-search application:
an Express/Sequelize backend plus React/Redux frontend that lets users
search the Openverse API and keep per-user search history.

The definitions below are a shallow embedding of the relevant source
modules.  External effects (the Openverse HTTP call, the database, bcrypt,
the wall clock) are modelled as explicit oracle parameters, and the state
touched by a handler (the searches table, the users table) is passed and
returned explicitly.  Outbound HTTP requests are recorded in a returned
trace list so that "no request was issued" is expressible.
-/

/-! ## Search-history store

Embeds `src/backend/models/searchHistory.js` and the duplicate
`src/unnamed/part_013` (class SearchHistory).  The `searches` table is a
list of rows; SQL timestamps are naturals.
-/

/-- One row of the `searches` table
(migration `20231023120002-create-searches-table.js`):
`(id, user_id, query, media_type, created_at)`. -/
structure SearchRow where
  id : Nat
  user_id : Nat
  query : String
  media_type : String
  created_at : Nat
  deriving DecidableEq, Repr

/-- SearchHistory.save: `INSERT INTO searches (user_id, query, media_type)
VALUES (?, ?, ?)`, returning the inserted id.  The database assigns the
fresh `newId` and the `CURRENT_TIMESTAMP` default `now`. -/
def SearchHistory.save (tbl : List SearchRow) (userId : Nat) (q mediaType : String)
    (newId now : Nat) : List SearchRow × Nat :=
  (tbl ++ [⟨newId, userId, q, mediaType, now⟩], newId)

/-- Comparator realising `ORDER BY created_at DESC`: a row sorts before
another when its timestamp is at least as large. -/
def createdDesc (a b : SearchRow) : Bool :=
  decide (b.created_at ≤ a.created_at)

/-- Projection of a row to the selected columns
`SELECT id, query, media_type, created_at` (user_id is not returned). -/
structure SearchHistoryResult where
  id : Nat
  query : String
  media_type : String
  created_at : Nat
  deriving DecidableEq, Repr

/-- Column projection used by getRecent. -/
def SearchRow.toResult (r : SearchRow) : SearchHistoryResult :=
  ⟨r.id, r.query, r.media_type, r.created_at⟩

/-- SearchHistory.getRecent: `SELECT id, query, media_type, created_at FROM
searches WHERE user_id = ? ORDER BY created_at DESC LIMIT ?`, with the
default `limit = 10` taken from the source. -/
def SearchHistory.getRecent (tbl : List SearchRow) (userId : Nat)
    (limit : Nat := 10) : List SearchHistoryResult :=
  ((((tbl.filter fun r => r.user_id == userId).mergeSort createdDesc).take limit).map
    SearchRow.toResult)

/-- SearchHistory.delete: `DELETE FROM searches WHERE id = ? AND user_id = ?`;
the returned Bool is `result.affectedRows > 0`. -/
def SearchHistory.delete (tbl : List SearchRow) (userId searchId : Nat) :
    List SearchRow × Bool :=
  let hit := tbl.filter fun r => r.id == searchId && r.user_id == userId
  let remaining := tbl.filter fun r => !(r.id == searchId && r.user_id == userId)
  (remaining, decide (0 < hit.length))

/-- SearchHistory.clearAll: `DELETE FROM searches WHERE user_id = ?`,
returning `affectedRows`. -/
def SearchHistory.clearAll (tbl : List SearchRow) (userId : Nat) :
    List SearchRow × Nat :=
  ((tbl.filter fun r => !(r.user_id == userId)),
   (tbl.filter fun r => r.user_id == userId).length)

/-- HTTP outcome of the deleteSearch controller
(`src/unnamed/part_015` deleteSearch / mediaController.js deleteSearch). -/
inductive DeleteResponse where
  | unauthorized
  | notFound
  | okDeleted
  deriving DecidableEq, Repr

/-- deleteSearch controller: 401 without a user, otherwise runs
SearchHistory.delete and maps `affectedRows === 0` to 404. -/
def deleteSearchController (user : Option Nat) (searchId : Nat)
    (tbl : List SearchRow) : DeleteResponse × List SearchRow :=
  match user with
  | none => (.unauthorized, tbl)
  | some uid =>
    let res := SearchHistory.delete tbl uid searchId
    if res.2 then (.okDeleted, res.1) else (.notFound, res.1)

/-! ## JavaScript truthiness helpers

The source leans on `x || default` and `if (x)`; for strings and numbers
the empty string and 0 are falsy. -/

/-- JS `v || d` for an optional string field (undefined and "" are falsy). -/
def jsOrStr (v : Option String) (d : String) : String :=
  match v with
  | none => d
  | some s => if s = "" then d else s

/-- JS `v || w` where both sides are optional strings. -/
def jsOrOpt (v w : Option String) : Option String :=
  match v with
  | none => w
  | some s => if s = "" then w else s

/-- JS truthiness of an optional number (undefined and 0 are falsy). -/
def jsTruthyInt (v : Option Int) : Bool :=
  match v with
  | none => false
  | some n => n != 0

/-- JS truthiness of an optional string (undefined and "" are falsy). -/
def jsTruthyStr (v : Option String) : Bool :=
  match v with
  | none => false
  | some s => s != ""

/-- Executable model of the JS `trim()` method: strip leading and trailing
whitespace.  Defined over the character list so concrete instances reduce
in the kernel. -/
def jsTrim (s : String) : String :=
  ⟨((s.data.dropWhile Char.isWhitespace).reverse.dropWhile Char.isWhitespace).reverse⟩

/-! ## Raw Openverse items and the two result mappings -/

/-- Raw Openverse result item as consumed by the mappers (`item: any`);
every field the mappers touch is optional except the id.  `tags` is
modelled as the list of tag names. -/
structure RawItem where
  id : String
  title : Option String
  creator : Option String
  url : Option String
  thumbnail : Option String
  provider : Option String
  source : Option String
  license : Option String
  license_url : Option String
  license_version : Option String
  tags : Option (List String)
  created_on : Option String
  width : Option Nat
  height : Option Nat
  duration : Option Nat
  deriving DecidableEq, Repr

/-- Normalized media item produced by the `fetchMedia` thunk in
`src/media-search-frontend/src/features/media/mediaSlice.ts`. -/
structure MediaItem where
  id : String
  title : String
  creator : Option String
  url : Option String
  thumbnail : String
  license : String
  license_version : Option String
  tags : List String
  provider : String
  created_at : String
  deriving DecidableEq, Repr

/-- The per-item mapping inside fetchMedia
(mediaSlice.ts lines 145-156).  `nowIso` models
`new Date().toISOString()`, the ambient time at the call. -/
def fetchMediaMapItem (item : RawItem) (nowIso : String) : MediaItem :=
  { id := item.id
    title := jsOrStr item.title "Untitled"
    creator := item.creator
    url := item.url
    thumbnail := jsOrStr item.thumbnail "/placeholder.jpg"
    license := jsOrStr item.license "unknown"
    license_version := item.license_version
    tags := item.tags.getD []
    provider := jsOrStr item.provider "unknown"
    created_at := jsOrStr item.created_on nowIso }

/-- Media type union of the TypeScript Openverse client. -/
inductive MediaType where
  | image
  | audio
  deriving DecidableEq, Repr

/-- License information record of the TypeScript Openverse client. -/
structure LicenseInfo where
  code : String
  name : String
  url : Option String
  deriving DecidableEq, Repr

/-- OpenverseMedia record produced by transformMediaItem
(`src/unnamed/part_001`, second module). -/
structure OvMedia where
  id : String
  title : String
  url : Option String
  thumbnail : Option String
  provider : Option String
  source : Option String
  license : LicenseInfo
  type : MediaType
  created_date : Option String
  tags : Option (List String)
  dimensions : Option (Nat × Nat)
  duration : Option Nat
  deriving DecidableEq, Repr

/-- Display name of a license:
`item.license.toUpperCase()` with underscores replaced by spaces. -/
def licenseDisplayName (lic : String) : String :=
  lic.toUpper.replace "_" " "

/-- transformMediaItem (`src/unnamed/part_001` lines 203-229).  The source
evaluates `item.license.toUpperCase()` with no fallback, so a raw item
without a license throws a TypeError; that exceptional exit is the error
branch here.  All other fields are copied or defaulted. -/
def transformMediaItem (item : RawItem) (mediaType : MediaType) :
    Except String OvMedia :=
  match item.license with
  | none => Except.error "TypeError: Cannot read properties of undefined"
  | some lic =>
    Except.ok
      { id := item.id
        title := jsOrStr item.title "Untitled"
        url := item.url
        thumbnail := jsOrOpt item.thumbnail item.url
        provider := item.provider
        source := item.source
        license := { code := lic, name := licenseDisplayName lic, url := item.license_url }
        type := mediaType
        created_date := item.created_on
        tags := item.tags
        dimensions :=
          if mediaType = .image then
            match item.width, item.height with
            | some w, some h => if w ≠ 0 ∧ h ≠ 0 then some (w, h) else none
            | _, _ => none
          else none
        duration :=
          if mediaType = .audio then
            match item.duration with
            | some d => if d ≠ 0 then some d else none
            | none => none
          else none }

/-! ## Media slice reducers (mediaSlice.ts) -/

/-- Request life-cycle status of the media slice. -/
inductive MediaStatus where
  | idle
  | loading
  | succeeded
  | failed
  deriving DecidableEq, Repr

/-- searchMeta portion of the media slice state. -/
structure SearchMeta where
  query : String
  page : Nat
  hasMore : Bool
  deriving DecidableEq, Repr

/-- Media slice state (mediaSlice.ts MediaState). -/
structure MediaState where
  items : List MediaItem
  status : MediaStatus
  error : Option String
  searchMeta : SearchMeta
  deriving DecidableEq, Repr

/-- initialState of the media slice. -/
def mediaInitialState : MediaState :=
  { items := [], status := .idle, error := none
    searchMeta := { query := "", page := 1, hasMore := false } }

/-- clearMedia reducer. -/
def clearMedia (s : MediaState) : MediaState :=
  { s with items := [], searchMeta := mediaInitialState.searchMeta
           status := .idle, error := none }

/-- fetchMedia.pending handler: enter loading and reset the slice when the
incoming query differs from the current one. -/
def fetchMediaPending (s : MediaState) (argQuery : String) : MediaState :=
  let s1 : MediaState := { s with status := .loading, error := none }
  if argQuery ≠ s.searchMeta.query then
    { s1 with searchMeta := { query := argQuery, page := 1, hasMore := false }
              items := [] }
  else s1

/-- fetchMedia.fulfilled handler (mediaSlice.ts lines 224-229): append the
payload, bump the page, recompute hasMore. -/
def fetchMediaFulfilled (s : MediaState) (payload : List MediaItem) : MediaState :=
  { s with status := .succeeded
           items := s.items ++ payload
           searchMeta := { s.searchMeta with
                            page := s.searchMeta.page + 1
                            hasMore := decide (0 < payload.length) } }

/-- fetchMedia.rejected handler. -/
def fetchMediaRejected (s : MediaState) (payload : Option String) : MediaState :=
  { s with status := .failed
           error := some (jsOrStr payload "Unknown error occurred") }

/-! ## Openverse clients

Two client variants exist in the repository: the TypeScript client in
`src/unnamed/part_001` (validateSearchParams + searchOpenverse) and the
JavaScript client appended to
`src/backend/migrations/20231023120002-create-searches-table.js`
(searchOpenverse with Math.min/Math.max clamping).  Both are embedded.
The environment answer to the single outbound HTTP call is the `Upstream`
oracle; the requests actually issued are returned as a trace list. -/

/-- Outcome the environment would give the outbound Openverse call:
a 2xx payload, a non-2xx response (axios rejects with
`error.response.status`), or a transport failure or timeout
(axios rejects with no response). -/
inductive Upstream where
  | ok (result_count : Nat) (results : List RawItem)
  | httpError (status : Nat)
  | netFailure
  deriving DecidableEq, Repr

/-- SearchParams of the TypeScript client (`src/unnamed/part_001`). -/
structure TsSearchParams where
  query : String
  mediaType : Option MediaType
  page : Option Int
  pageSize : Option Int
  licenses : Option (List String)
  provider : Option String
  tags : Option (List String)
  deriving DecidableEq, Repr

/-- validateSearchParams (`src/unnamed/part_001` lines 183-195).  Note the
JS guards `params.pageSize && ...` and `params.page && ...`: the value 0
is falsy, so a zero pageSize or page skips its range check. -/
def validateSearchParams (p : TsSearchParams) : Except String Unit :=
  if p.query = "" ∨ jsTrim p.query = "" then
    Except.error "Search query cannot be empty"
  else if jsTruthyInt p.pageSize ∧ (p.pageSize.getD 0 < 1 ∨ 50 < p.pageSize.getD 0) then
    Except.error "Page size must be between 1 and 50"
  else if jsTruthyInt p.page ∧ p.page.getD 0 < 1 then
    Except.error "Page number must be at least 1"
  else Except.ok ()

/-- Query parameters of the GET request the TypeScript client sends to
`BASE_URL/mediaType/`. -/
structure OutRequest where
  mediaType : MediaType
  q : String
  page : Int
  page_size : Int
  license : Option String
  provider : Option String
  tags : Option String
  deriving DecidableEq, Repr

/-- Error value of the TypeScript client (class OpenverseApiError). -/
structure OvError where
  message : String
  statusCode : Option Nat
  deriving DecidableEq, Repr

/-- searchOpenverse, TypeScript client (`src/unnamed/part_001` lines
246-311): validate, build the request parameters (defaults
mediaType image, page 1, pageSize 20; optional license/provider/tags
filters), issue the single GET, and map every raw result through
transformMediaItem.  A validation error is thrown before any request; a
TypeError thrown inside the result mapping is caught by the same outer
catch and wrapped as an OpenverseApiError. -/
def searchOpenverseTS (p : TsSearchParams) (upstream : Upstream) :
    Except OvError (List OvMedia) × List OutRequest :=
  match validateSearchParams p with
  | Except.error m => (Except.error ⟨m, none⟩, [])
  | Except.ok _ =>
    let mediaType := p.mediaType.getD .image
    let req : OutRequest :=
      { mediaType := mediaType
        q := p.query
        page := p.page.getD 1
        page_size := p.pageSize.getD 20
        license :=
          match p.licenses with
          | some ls => if 0 < ls.length then some (String.intercalate "," ls) else none
          | none => none
        provider := if jsTruthyStr p.provider then p.provider else none
        tags :=
          match p.tags with
          | some ts => if 0 < ts.length then some (String.intercalate "," ts) else none
          | none => none }
    match upstream with
    | .ok _ results =>
      ((match results.mapM (fun item => transformMediaItem item mediaType) with
        | Except.ok mapped => Except.ok mapped
        | Except.error m => Except.error ⟨m, none⟩), [req])
    | .httpError s => (Except.error ⟨"Request failed", some s⟩, [req])
    | .netFailure => (Except.error ⟨"timeout of 10000ms exceeded", none⟩, [req])

/-- Query parameters of the GET request the JavaScript client sends. -/
structure OutRequestJS where
  media_type : String
  q : String
  page : Int
  page_size : Int
  deriving DecidableEq, Repr

/-- searchOpenverse, JavaScript client (second module of
`src/backend/migrations/20231023120002-create-searches-table.js`,
lines 82-97): destructuring defaults media_type image, page 1,
page_size 20; sends `q.trim()`, `Math.max(1, page)` and
`Math.min(500, Math.max(1, page_size))`; no query validation. -/
def searchOpenverseJS (q : String) (media_type : Option String)
    (page page_size : Option Int) (upstream : Upstream) :
    Except String (Nat × List RawItem) × List OutRequestJS :=
  let req : OutRequestJS :=
    { media_type := media_type.getD "image"
      q := jsTrim q
      page := max 1 (page.getD 1)
      page_size := min 500 (max 1 (page_size.getD 20)) }
  match upstream with
  | .ok cnt results => (Except.ok (cnt, results), [req])
  | .httpError s => (Except.error ("MEDIA SEARCH FAILED: " ++ toString s), [req])
  | .netFailure => (Except.error "MEDIA SEARCH FAILED: NETWORK ERROR", [req])

/-! ## Search controllers

Two controller variants handle `GET /api/media/search`: the TypeScript
controller `src/unnamed/part_015` (searchMedia, v2.0.0) and the JavaScript
controller `src/backend/controllers/mediaController.js` (searchMedia,
v1.0.0).  The database INSERT outcome is the `DbWrite` oracle. -/

/-- Outcome the database would give the history INSERT. -/
inductive DbWrite where
  | ok
  | failure
  deriving DecidableEq, Repr

/-- Query parameters of the GET request a controller forwards to
Openverse (the TS controller adds `page`; the JS controller does not). -/
structure ControllerRequest where
  media_type : String
  q : String
  license : Option String
  extension : Option String
  page : Option Int
  deriving DecidableEq, Repr

/-- HTTP outcome of the TypeScript controller searchMedia. -/
inductive TsSearchResponse where
  | badRequest
  | okResults (count : Nat) (results : List RawItem)
  | upstreamError (status : Nat)
  | fetchFailed
  deriving DecidableEq, Repr

/-- HTTP status code of a TypeScript controller outcome: 400 for
validation, 200 for success, the upstream status passthrough, 500 for a
transport failure. -/
def TsSearchResponse.statusCode : TsSearchResponse → Nat
  | .badRequest => 400
  | .okResults _ _ => 200
  | .upstreamError s => s
  | .fetchFailed => 500

/-- Whether a TypeScript controller outcome is the success response. -/
def TsSearchResponse.isSuccess : TsSearchResponse → Bool
  | .okResults _ _ => true
  | _ => false

/-- searchMedia, TypeScript controller (`src/unnamed/part_015` lines
63-133).  Flow: express-validator check (modelled by
`validationPassed`), the Openverse GET, then for an authenticated user
the history INSERT inside its own try/catch whose failure is logged and
swallowed, then the success JSON.  An axios rejection skips the INSERT
and maps to a status passthrough (response present) or a 500. -/
def searchMediaTS (validationPassed : Bool) (user : Option Nat) (q : String)
    (media_type : Option String) (license extension : Option String)
    (page : Option Int) (upstream : Upstream) (dbWrite : DbWrite)
    (tbl : List SearchRow) (newId now : Nat) :
    TsSearchResponse × List SearchRow × List ControllerRequest :=
  if !validationPassed then (.badRequest, tbl, [])
  else
    let mt := media_type.getD "image"
    let req : ControllerRequest :=
      { media_type := mt, q := q, license := license, extension := extension
        page := some (page.getD 1) }
    match upstream with
    | .httpError s => (.upstreamError s, tbl, [req])
    | .netFailure => (.fetchFailed, tbl, [req])
    | .ok cnt results =>
      match user with
      | none => (.okResults cnt results, tbl, [req])
      | some uid =>
        match dbWrite with
        | .ok => (.okResults cnt results, (SearchHistory.save tbl uid q mt newId now).1, [req])
        | .failure => (.okResults cnt results, tbl, [req])

/-- HTTP outcome of the JavaScript controller searchMedia. -/
inductive JsSearchResponse where
  | missingQuery
  | okData (count : Nat) (results : List RawItem)
  | serverError
  deriving DecidableEq, Repr

/-- HTTP status code of a JavaScript controller outcome. -/
def JsSearchResponse.statusCode : JsSearchResponse → Nat
  | .missingQuery => 400
  | .okData _ _ => 200
  | .serverError => 500

/-- Whether a JavaScript controller outcome is the success response. -/
def JsSearchResponse.isSuccess : JsSearchResponse → Bool
  | .okData _ _ => true
  | _ => false

/-- searchMedia, JavaScript controller
(`src/backend/controllers/mediaController.js` lines 53-77).  `!q` guards
before the try block (no request issued); both the axios call and the
awaited `db.execute` INSERT sit in one try whose catch returns 500, so a
history-write failure after a successful upstream call surfaces as a 500
and no success body is sent. -/
def searchMediaJS (user : Option Nat) (q : String) (media_type : Option String)
    (license extension : Option String) (upstream : Upstream) (dbWrite : DbWrite)
    (tbl : List SearchRow) (newId now : Nat) :
    JsSearchResponse × List SearchRow × List ControllerRequest :=
  if q = "" then (.missingQuery, tbl, [])
  else
    let mt := media_type.getD "image"
    let req : ControllerRequest :=
      { media_type := mt, q := q, license := license, extension := extension
        page := none }
    match upstream with
    | .httpError _ => (.serverError, tbl, [req])
    | .netFailure => (.serverError, tbl, [req])
    | .ok cnt results =>
      match user with
      | none => (.okData cnt results, tbl, [req])
      | some uid =>
        match dbWrite with
        | .ok => (.okData cnt results, (SearchHistory.save tbl uid q mt newId now).1, [req])
        | .failure => (.serverError, tbl, [req])

/-! ## Authentication (part_016)

Both controller variants in `src/unnamed/part_016` share the same
credential logic; bcrypt is the `bcryptCompare`/`bcryptHash` oracle and
the users table is a list of rows.  `jwt.sign({id, email}, secret,
{expiresIn: TOKEN_EXPIRY})` is modelled as a record of the claims it is
given plus the expiry (TOKEN_EXPIRY = 1h = 3600 s). -/

/-- One row of the `users` table. -/
structure UserRow where
  id : Nat
  name : String
  email : String
  password : String
  deriving DecidableEq, Repr

/-- `User.findOne({ where: { email } })`. -/
def findOneByEmail (users : List UserRow) (email : String) : Option UserRow :=
  users.find? fun u => u.email == email

/-- Signed JWT as issued by the controllers: exactly the claims
`{id, email}` with a one-hour expiry. -/
structure AuthToken where
  claim_id : Nat
  claim_email : String
  expiresInSeconds : Nat
  deriving DecidableEq, Repr

/-- The sanitized user object both controllers place in success bodies:
the JSON keys and rendered values of `{ id, name, email }`. -/
def publicUserFields (u : UserRow) : List (String × String) :=
  [("id", toString u.id), ("name", u.name), ("email", u.email)]

/-- HTTP outcome of login (`src/unnamed/part_016` lines 107-179 and
387-441; both variants return 400 on missing fields, 401 on unknown email
or failed bcrypt compare, and token plus sanitized user on success). -/
inductive LoginResult where
  | badRequest
  | invalidCredentials
  | success (token : AuthToken) (user : List (String × String))
  deriving DecidableEq, Repr

/-- login controller. -/
def login (users : List UserRow) (bcryptCompare : String → String → Bool)
    (email password : String) : LoginResult :=
  if email = "" ∨ password = "" then .badRequest
  else
    match findOneByEmail users email with
    | none => .invalidCredentials
    | some u =>
      if bcryptCompare password u.password then
        .success ⟨u.id, u.email, 3600⟩ (publicUserFields u)
      else .invalidCredentials

/-- HTTP outcome of the TypeScript register controller
(`src/unnamed/part_016` lines 318-376): 201 carries a token and the
sanitized user object. -/
inductive RegisterResult where
  | badRequest
  | conflict
  | created (token : AuthToken) (user : List (String × String))
  deriving DecidableEq, Repr

/-- register controller (TypeScript variant): duplicate-email check,
bcrypt hash, insert, immediate token. -/
def register (users : List UserRow) (bcryptHash : String → String)
    (validationPassed : Bool) (name email password : String) (newId : Nat) :
    RegisterResult × List UserRow :=
  if !validationPassed then (.badRequest, users)
  else
    match findOneByEmail users email with
    | some _ => (.conflict, users)
    | none =>
      let u : UserRow := ⟨newId, name, email, bcryptHash password⟩
      ((.created ⟨u.id, u.email, 3600⟩ (publicUserFields u)), users ++ [u])

/-- Attribute columns of the User model
(`src/backend/models/user.js` User.init). -/
def userAttributes : List String :=
  ["id", "name", "email", "password", "createdAt", "updatedAt"]

/-- defaultScope of the User model: exclude the password attribute. -/
def defaultScopeExclude : List String := ["password"]

/-- Attributes a default-scope read returns: all model attributes minus
the excluded ones. -/
def defaultScopeAttributes : List String :=
  userAttributes.filter fun a => !(defaultScopeExclude.contains a)

/-- Columns selected by the v2 getProfile
(`User.findByPk(..., { attributes: [...] })`). -/
def profileAttributesTS : List String := ["id", "name", "email", "createdAt"]

/-- Columns selected by the v1 getProfile
(`SELECT id, username, email FROM users WHERE id = ?`). -/
def profileSelectJS : List String := ["id", "username", "email"]

/-- validateSearchParams middleware of the TypeScript controller
(`src/unnamed/part_015` lines 221-236): reject a falsy `q` with 400, then
reject a provided media_type outside image/audio/video. -/
def validateSearchParamsMW (q : String) (media_type : Option String) : Bool :=
  !(q == "") &&
    (match media_type with
     | none => true
     | some mt => ["image", "audio", "video"].contains mt)

/-! ## Concrete fixtures

Closed sample values used by the witness and counterexample theorems. -/

/-- Stand-in for the bcrypt compare oracle: the candidate matches exactly
its stored hash string. -/
def strEqCompare (candidate stored : String) : Bool := candidate == stored

/-- Sample user row. -/
def user0 : UserRow := ⟨1, "Alice", "alice@example.com", "hashedpw"⟩

/-- Sample normalized media item. -/
def sampleMediaItem : MediaItem :=
  { id := "m1", title := "A", creator := none, url := none, thumbnail := "t"
    license := "cc0", license_version := none, tags := [], provider := "p"
    created_at := "2023-10-23" }

/-- Raw Openverse item with no license (and most fields absent). -/
def rawNoLicense : RawItem :=
  { id := "abc123", title := none, creator := none
    url := some "https://img.example/x.jpg", thumbnail := none, provider := none
    source := none, license := none, license_url := none, license_version := none
    tags := none, created_on := none, width := none, height := none, duration := none }

/-- Raw Openverse item carrying a license but no title. -/
def rawWithLicense : RawItem :=
  { id := "def456", title := none, creator := none
    url := some "https://img.example/y.jpg", thumbnail := none, provider := none
    source := none, license := some "cc_by", license_url := none
    license_version := none, tags := none, created_on := none, width := none
    height := none, duration := none }

/-- Sample searches table: user 1 owns rows 1 and 3, user 2 owns row 2. -/
def tbl0 : List SearchRow :=
  [⟨1, 1, "cats", "image", 5⟩, ⟨2, 2, "dogs", "image", 6⟩, ⟨3, 1, "birds", "audio", 7⟩]

/-- Search parameters asking for pageSize 100. -/
def p100 : TsSearchParams := ⟨"cats", none, none, some 100, none, none, none⟩

/-- Search parameters with every optional field absent. -/
def pOk : TsSearchParams := ⟨"cats", none, none, none, none, none, none⟩

/-- Search parameters whose query is whitespace only. -/
def pBlank : TsSearchParams := ⟨"   ", none, none, none, none, none, none⟩

/-- Search parameters asking for pageSize 0. -/
def pZero : TsSearchParams := ⟨"cats", none, none, some 0, none, none, none⟩

/-! ## Claim theorems -/

/-- C10: applying the fetchMedia.fulfilled handler appends the payload to
the existing items (previously loaded items are preserved, never
replaced), increments searchMeta.page by one, and sets searchMeta.hasMore
exactly when the payload is non-empty. -/
theorem fetchMedia_fulfilled_spec (s : MediaState) (payload : List MediaItem) :
    (fetchMediaFulfilled s payload).items = s.items ++ payload
    ∧ (fetchMediaFulfilled s payload).searchMeta.page = s.searchMeta.page + 1
    ∧ ((fetchMediaFulfilled s payload).searchMeta.hasMore = true ↔ payload ≠ [])
    ∧ (fetchMediaFulfilled s payload).searchMeta.query = s.searchMeta.query
    ∧ (fetchMediaFulfilled s payload).status = MediaStatus.succeeded := by
  refine ⟨rfl, rfl, ?_, rfl, rfl⟩
  simp [fetchMediaFulfilled, List.length_pos]

/-- C10 witness: the handler run on the initial state with a singleton
payload reports more results available. -/
theorem fetchMedia_fulfilled_spec_witness :
    (fetchMediaFulfilled mediaInitialState [sampleMediaItem]).searchMeta.hasMore = true :=
  (fetchMedia_fulfilled_spec mediaInitialState [sampleMediaItem]).2.2.1.mpr (by decide)

/-- C7: SearchHistory.delete removes a record exactly when a row with the
given id belongs to the given user, returning true in that case; when no
such row exists it returns false and leaves the table unchanged, the
controller maps that to 404, and a row owned by a different user is never
removed. -/
theorem delete_ownership_spec (tbl : List SearchRow) (A s : Nat) :
    ((SearchHistory.delete tbl A s).2 = true ↔ ∃ r ∈ tbl, r.id = s ∧ r.user_id = A)
    ∧ ((¬ ∃ r ∈ tbl, r.id = s ∧ r.user_id = A) →
        SearchHistory.delete tbl A s = (tbl, false))
    ∧ (∀ r ∈ tbl, r.user_id ≠ A → r ∈ (SearchHistory.delete tbl A s).1)
    ∧ ((¬ ∃ r ∈ tbl, r.id = s ∧ r.user_id = A) →
        deleteSearchController (some A) s tbl = (DeleteResponse.notFound, tbl))
    ∧ ((∃ r ∈ tbl, r.id = s ∧ r.user_id = A) →
        (deleteSearchController (some A) s tbl).1 = DeleteResponse.okDeleted) := by
  have hiff : (SearchHistory.delete tbl A s).2 = true ↔ ∃ r ∈ tbl, r.id = s ∧ r.user_id = A := by
    simp [SearchHistory.delete, List.length_pos, List.filter_eq_nil_iff]
  have hnone : (¬ ∃ r ∈ tbl, r.id = s ∧ r.user_id = A) →
      SearchHistory.delete tbl A s = (tbl, false) := by
    intro h
    have h2 : (SearchHistory.delete tbl A s).2 = false := by
      cases hb : (SearchHistory.delete tbl A s).2 with
      | false => rfl
      | true => exact absurd (hiff.mp hb) h
    have h1 : (SearchHistory.delete tbl A s).1 = tbl := by
      simp only [SearchHistory.delete]
      refine List.filter_eq_self.mpr ?_
      intro r hr
      push_neg at h
      have hh := h r hr
      simp only [Bool.not_eq_eq_eq_not, Bool.not_true, Bool.and_eq_false_imp,
        beq_iff_eq, beq_eq_false_iff_ne, ne_eq]
      exact hh
    calc SearchHistory.delete tbl A s
        = ((SearchHistory.delete tbl A s).1, (SearchHistory.delete tbl A s).2) := rfl
      _ = (tbl, false) := by rw [h1, h2]
  refine ⟨hiff, hnone, ?_, ?_, ?_⟩
  · intro r hr hA
    simp only [SearchHistory.delete]
    refine List.mem_filter.mpr ⟨hr, ?_⟩
    simp [hA]
  · intro h
    have := hnone h
    simp only [deleteSearchController, this]
    rfl
  · intro h
    have h2 : (SearchHistory.delete tbl A s).2 = true := hiff.mpr h
    simp [deleteSearchController, h2]

/-- C7 witness: deleting row 2 (owned by user 2) as user 1 fails with 404
and leaves the sample table unchanged; deleting row 1 as its owner
succeeds. -/
theorem delete_ownership_spec_witness :
    deleteSearchController (some 1) 2 tbl0 = (DeleteResponse.notFound, tbl0)
    ∧ (deleteSearchController (some 1) 1 tbl0).1 = DeleteResponse.okDeleted :=
  ⟨(delete_ownership_spec tbl0 1 2).2.2.2.1 (by decide),
   (delete_ownership_spec tbl0 1 1).2.2.2.2 (by decide)⟩

/-- C9: getRecent returns at most `limit` records (at most 10 under the
default), every returned record is the projection of a table row owned by
the requested user, the records are ordered newest-first by created_at,
and a user with no rows gets the empty list. -/
theorem getRecent_spec (tbl : List SearchRow) (uid limit : Nat) :
    (SearchHistory.getRecent tbl uid limit).length ≤ limit
    ∧ (SearchHistory.getRecent tbl uid).length ≤ 10
    ∧ (∀ x ∈ SearchHistory.getRecent tbl uid limit,
        ∃ r ∈ tbl, r.user_id = uid ∧ SearchRow.toResult r = x)
    ∧ (SearchHistory.getRecent tbl uid limit).Pairwise
        (fun a b => b.created_at ≤ a.created_at)
    ∧ ((∀ r ∈ tbl, r.user_id ≠ uid) → SearchHistory.getRecent tbl uid limit = []) := by
  have hlen : ∀ L : Nat, (SearchHistory.getRecent tbl uid L).length ≤ L := by
    intro L
    simp only [SearchHistory.getRecent, List.length_map, List.length_take]
    exact min_le_left _ _
  refine ⟨hlen limit, hlen 10, ?_, ?_, ?_⟩
  · intro x hx
    simp only [SearchHistory.getRecent, List.mem_map] at hx
    obtain ⟨r, hrtake, hrx⟩ := hx
    have hrsort := List.take_subset _ _ hrtake
    have hrfil := List.mem_mergeSort.mp hrsort
    have := List.mem_filter.mp hrfil
    exact ⟨r, this.1, by simpa using this.2, hrx⟩
  · have hs : ((tbl.filter fun r => r.user_id == uid).mergeSort createdDesc).Pairwise
        (fun a b => createdDesc a b = true) := by
      refine List.sorted_mergeSort ?_ ?_ _
      · intro a b c hab hbc
        simp only [createdDesc, decide_eq_true_eq] at *
        exact le_trans hbc hab
      · intro a b
        simp only [createdDesc, Bool.or_eq_true, decide_eq_true_eq]
        exact Nat.le_total b.created_at a.created_at
    have htake := hs.sublist (List.take_sublist limit _)
    simp only [SearchHistory.getRecent]
    refine List.pairwise_map.mpr ?_
    refine htake.imp ?_
    intro a b h
    simpa [createdDesc, SearchRow.toResult] using h
  · intro h
    have hfil : tbl.filter (fun r => r.user_id == uid) = [] := by
      refine List.filter_eq_nil_iff.mpr ?_
      intro r hr
      simpa using h r hr
    simp [SearchHistory.getRecent, hfil]

/-- C9 witness: in the sample table user 99 owns nothing and getRecent
returns the empty list; getRecent for user 1 with limit 1 returns at most
one record. -/
theorem getRecent_spec_witness :
    SearchHistory.getRecent tbl0 99 10 = []
    ∧ (SearchHistory.getRecent tbl0 1 1).length ≤ 1 :=
  ⟨(getRecent_spec tbl0 99 10).2.2.2.2 (by decide),
   (getRecent_spec tbl0 1 1).1⟩

/-- C1: for every authenticated search in which the Openverse call fails
(non-2xx response or transport failure/timeout), both controller variants
return an error response and leave the searches table exactly as it was:
no SearchRecord is created on the failure path. -/
theorem upstream_failure_atomicity (uid newId now : Nat) (q : String)
    (mt lic ext : Option String) (pg : Option Int) (st : Nat) (dbw : DbWrite)
    (tbl : List SearchRow) :
    (searchMediaTS true (some uid) q mt lic ext pg (Upstream.httpError st) dbw tbl newId now).2.1 = tbl
    ∧ ((searchMediaTS true (some uid) q mt lic ext pg (Upstream.httpError st) dbw tbl newId now).1).isSuccess = false
    ∧ ((searchMediaTS true (some uid) q mt lic ext pg (Upstream.httpError st) dbw tbl newId now).1).statusCode = st
    ∧ (searchMediaTS true (some uid) q mt lic ext pg Upstream.netFailure dbw tbl newId now).2.1 = tbl
    ∧ (searchMediaTS true (some uid) q mt lic ext pg Upstream.netFailure dbw tbl newId now).1 = TsSearchResponse.fetchFailed
    ∧ (searchMediaJS (some uid) q mt lic ext (Upstream.httpError st) dbw tbl newId now).2.1 = tbl
    ∧ ((searchMediaJS (some uid) q mt lic ext (Upstream.httpError st) dbw tbl newId now).1).isSuccess = false
    ∧ (searchMediaJS (some uid) q mt lic ext Upstream.netFailure dbw tbl newId now).2.1 = tbl
    ∧ ((searchMediaJS (some uid) q mt lic ext Upstream.netFailure dbw tbl newId now).1).isSuccess = false := by
  by_cases hq : q = "" <;>
    simp [searchMediaTS, searchMediaJS, TsSearchResponse.isSuccess,
      TsSearchResponse.statusCode, JsSearchResponse.isSuccess, hq]

/-- C2 counterexample: in the JavaScript controller
(`src/backend/controllers/mediaController.js`), a search by authenticated
user 1 whose Openverse call succeeds but whose history INSERT fails
returns the 500 error response, not the success body that the same
request returns when the write succeeds. -/
theorem history_write_failure_propagates_js :
    searchMediaJS (some 1) "cats" none none none (Upstream.ok 2 []) DbWrite.failure [] 7 0
      = (JsSearchResponse.serverError, [], [⟨"image", "cats", none, none, none⟩])
    ∧ searchMediaJS (some 1) "cats" none none none (Upstream.ok 2 []) DbWrite.ok [] 7 0
      = (JsSearchResponse.okData 2 [], [⟨7, 1, "cats", "image", 0⟩],
         [⟨"image", "cats", none, none, none⟩]) := by
  exact ⟨rfl, rfl⟩

/-- C2 (amended): in the TypeScript controller (`src/unnamed/part_015`) a
history-write failure after a successful Openverse call never reaches the
caller: the response equals the success response of the same request with
a succeeding write, and no row is inserted; in the superseded JavaScript
controller the same failure instead surfaces as the 500 error response. -/
theorem history_write_isolation_ts (uid newId now : Nat) (q : String)
    (mt lic ext : Option String) (pg : Option Int) (cnt : Nat)
    (results : List RawItem) (tbl : List SearchRow) :
    (searchMediaTS true (some uid) q mt lic ext pg (Upstream.ok cnt results) DbWrite.failure tbl newId now).1
      = TsSearchResponse.okResults cnt results
    ∧ (searchMediaTS true (some uid) q mt lic ext pg (Upstream.ok cnt results) DbWrite.failure tbl newId now).1
      = (searchMediaTS true (some uid) q mt lic ext pg (Upstream.ok cnt results) DbWrite.ok tbl newId now).1
    ∧ (searchMediaTS true (some uid) q mt lic ext pg (Upstream.ok cnt results) DbWrite.failure tbl newId now).2.1
      = tbl
    ∧ (q ≠ "" →
        (searchMediaJS (some uid) q mt lic ext (Upstream.ok cnt results) DbWrite.failure tbl newId now).1
          = JsSearchResponse.serverError) := by
  refine ⟨rfl, rfl, rfl, ?_⟩
  intro hq
  simp [searchMediaJS, hq]

/-- C2 witness: concrete run of the TypeScript controller with a failing
history write; the caller still receives the success body. -/
theorem history_write_isolation_ts_witness :
    (searchMediaTS true (some 1) "cats" none none none none (Upstream.ok 2 []) DbWrite.failure [] 7 0).1
      = TsSearchResponse.okResults 2 []
    ∧ (searchMediaJS (some 1) "cats" none none none (Upstream.ok 2 []) DbWrite.failure [] 7 0).1
      = JsSearchResponse.serverError :=
  ⟨(history_write_isolation_ts 1 7 0 "cats" none none none none 2 [] []).1,
   (history_write_isolation_ts 1 7 0 "cats" none none none none 2 [] []).2.2.2 (by decide)⟩

/-- C8: a search whose query is empty (or whitespace) fails validation
before any outbound call: the TypeScript client throws its validation
error having issued no request, the JavaScript controller returns 400
with no request and an unchanged table, and the TypeScript controller
rejects with 400 with no request once its query-validation middleware
fails, which it does on an empty query. -/
theorem empty_query_rejected_before_request :
    (∀ (p : TsSearchParams) (up : Upstream), jsTrim p.query = "" →
       (searchOpenverseTS p up).1 = Except.error ⟨"Search query cannot be empty", none⟩
       ∧ (searchOpenverseTS p up).2 = [])
    ∧ (∀ (user : Option Nat) (mt lic ext : Option String) (up : Upstream)
         (dbw : DbWrite) (tbl : List SearchRow) (newId now : Nat),
       searchMediaJS user "" mt lic ext up dbw tbl newId now
         = (JsSearchResponse.missingQuery, tbl, [])
       ∧ JsSearchResponse.statusCode JsSearchResponse.missingQuery = 400)
    ∧ (∀ (mt : Option String), validateSearchParamsMW "" mt = false)
    ∧ (∀ (user : Option Nat) (q : String) (mt lic ext : Option String)
         (pg : Option Int) (up : Upstream) (dbw : DbWrite) (tbl : List SearchRow)
         (newId now : Nat),
       searchMediaTS false user q mt lic ext pg up dbw tbl newId now
         = (TsSearchResponse.badRequest, tbl, [])
       ∧ TsSearchResponse.statusCode TsSearchResponse.badRequest = 400) := by
  refine ⟨?_, ?_, ?_, ?_⟩
  · intro p up h
    constructor <;> simp [searchOpenverseTS, validateSearchParams, h]
  · intro user mt lic ext up dbw tbl newId now
    exact ⟨rfl, rfl⟩
  · intro mt
    rfl
  · intro user q mt lic ext pg up dbw tbl newId now
    exact ⟨rfl, rfl⟩

/-- C8 witness: a whitespace-only query produces the validation error and
an empty request trace. -/
theorem empty_query_rejected_before_request_witness :
    (searchOpenverseTS pBlank (Upstream.ok 0 [])).2 = [] :=
  (empty_query_rejected_before_request.1 pBlank (Upstream.ok 0 []) (by decide)).2

/-- C3 counterexample: transformMediaItem is not total: a raw item with no
license (all other fields may also be missing) makes the mapping throw
the TypeError instead of producing a MediaResult with license defaulted
to unknown. -/
theorem transform_not_total :
    transformMediaItem rawNoLicense MediaType.image
      = Except.error "TypeError: Cannot read properties of undefined" := rfl

/-- C3 (amended): the fetchMedia mapping is total with deterministic
defaults (missing title to Untitled, missing license to unknown, missing
thumbnail to the placeholder, missing provider to unknown), and all its
defaulted fields except the wall-clock created_at fallback depend only on
the raw item; transformMediaItem defaults the title the same way but
succeeds exactly when the raw item carries a license. -/
theorem media_mapping_defaults :
    (∀ (item : RawItem) (mt : MediaType),
       (∃ m, transformMediaItem item mt = Except.ok m) ↔ item.license ≠ none)
    ∧ (∀ (item : RawItem) (mt : MediaType) (lic : String),
       item.license = some lic →
       ∃ m, transformMediaItem item mt = Except.ok m
         ∧ m.title = jsOrStr item.title "Untitled"
         ∧ (item.title = none → m.title = "Untitled"))
    ∧ (∀ (item : RawItem) (nowIso : String),
       (item.title = none → (fetchMediaMapItem item nowIso).title = "Untitled")
       ∧ (item.license = none → (fetchMediaMapItem item nowIso).license = "unknown")
       ∧ (item.thumbnail = none → (fetchMediaMapItem item nowIso).thumbnail = "/placeholder.jpg")
       ∧ (item.provider = none → (fetchMediaMapItem item nowIso).provider = "unknown"))
    ∧ (∀ (item : RawItem) (n1 n2 : String),
       (fetchMediaMapItem item n1).title = (fetchMediaMapItem item n2).title
       ∧ (fetchMediaMapItem item n1).license = (fetchMediaMapItem item n2).license
       ∧ (fetchMediaMapItem item n1).thumbnail = (fetchMediaMapItem item n2).thumbnail
       ∧ (fetchMediaMapItem item n1).provider = (fetchMediaMapItem item n2).provider
       ∧ (fetchMediaMapItem item n1).tags = (fetchMediaMapItem item n2).tags
       ∧ (jsTruthyStr item.created_on = true →
           fetchMediaMapItem item n1 = fetchMediaMapItem item n2)) := by
  refine ⟨?_, ?_, ?_, ?_⟩
  · intro item mt
    cases h : item.license with
    | none => simp [transformMediaItem, h]
    | some lic => simp [transformMediaItem, h]
  · intro item mt lic h
    cases hres : transformMediaItem item mt with
    | error e =>
      exfalso
      simp [transformMediaItem, h] at hres
    | ok m =>
      refine ⟨m, rfl, ?_, ?_⟩
      · simp only [transformMediaItem, h, Except.ok.injEq] at hres
        rw [← hres]
      · intro ht
        simp only [transformMediaItem, h, Except.ok.injEq] at hres
        rw [← hres]
        simp [jsOrStr, ht]
  · intro item nowIso
    refine ⟨?_, ?_, ?_, ?_⟩ <;> intro h <;> simp [fetchMediaMapItem, jsOrStr, h]
  · intro item n1 n2
    refine ⟨rfl, rfl, rfl, rfl, rfl, ?_⟩
    intro h
    cases hc : item.created_on with
    | none => simp [jsTruthyStr, hc] at h
    | some s =>
      simp only [jsTruthyStr, hc, bne_iff_ne, ne_eq, decide_eq_true_eq] at h
      simp [fetchMediaMapItem, jsOrStr, hc, h]

/-- C3 witness: a raw item that has a license but no title maps
successfully and its title is defaulted to Untitled. -/
theorem media_mapping_defaults_witness :
    ∃ m, transformMediaItem rawWithLicense MediaType.image = Except.ok m
      ∧ m.title = jsOrStr rawWithLicense.title "Untitled"
      ∧ (rawWithLicense.title = none → m.title = "Untitled") :=
  media_mapping_defaults.2.1 rawWithLicense MediaType.image "cc_by" rfl

/-- C4 counterexample: a requested pageSize of 100 is not clamped to 50:
the TypeScript client rejects it with its range validation error and
issues no request at all, and the JavaScript client sends page_size 100
upstream unchanged (its clamp bound is 500). -/
theorem pageSize_not_clamped_to_50 :
    (searchOpenverseTS p100 (Upstream.ok 0 [])).1
      = Except.error ⟨"Page size must be between 1 and 50", none⟩
    ∧ (searchOpenverseTS p100 (Upstream.ok 0 [])).2 = []
    ∧ (searchOpenverseJS "cats" none none (some 100) (Upstream.ok 0 [])).2
      = [⟨"image", "cats", 1, 100⟩] := by
  exact ⟨rfl, rfl, rfl⟩

/-- C4 (amended): the JavaScript client clamps page to at least 1 and
page_size into [1,500] (defaults 1 and 20); the TypeScript client does
not clamp: when validation passes it forwards pageSize (default 20) and
page (default 1) unchanged in its single request, a nonzero pageSize
outside [1,50] fails validation with no request issued, and a pageSize of
0 slips through the falsy-guarded check and is forwarded as 0. -/
theorem pagination_params_spec :
    (∀ (q : String) (mt : Option String) (pg ps : Option Int) (up : Upstream),
       ∃ r, (searchOpenverseJS q mt pg ps up).2 = [r]
         ∧ r.page_size = min 500 (max 1 (ps.getD 20))
         ∧ r.page = max 1 (pg.getD 1)
         ∧ r.q = jsTrim q ∧ r.media_type = mt.getD "image")
    ∧ (∀ (p : TsSearchParams) (up : Upstream),
       validateSearchParams p = Except.ok () →
       ∃ r, (searchOpenverseTS p up).2 = [r]
         ∧ r.page_size = p.pageSize.getD 20
         ∧ r.page = p.page.getD 1
         ∧ r.q = p.query
         ∧ r.mediaType = p.mediaType.getD MediaType.image)
    ∧ (∀ (p : TsSearchParams) (up : Upstream) (n : Int),
       p.pageSize = some n → n ≠ 0 → (n < 1 ∨ 50 < n) →
       p.query ≠ "" → jsTrim p.query ≠ "" →
       (searchOpenverseTS p up).1
         = Except.error ⟨"Page size must be between 1 and 50", none⟩
       ∧ (searchOpenverseTS p up).2 = [])
    ∧ (∀ (p : TsSearchParams),
       p.query ≠ "" → jsTrim p.query ≠ "" → p.pageSize = some 0 →
       (jsTruthyInt p.page = false ∨ 1 ≤ p.page.getD 0) →
       validateSearchParams p = Except.ok ()) := by
  refine ⟨?_, ?_, ?_, ?_⟩
  · intro q mt pg ps up
    cases up <;> exact ⟨_, rfl, rfl, rfl, rfl, rfl⟩
  · intro p up h
    simp only [searchOpenverseTS, h]
    cases up <;> exact ⟨_, rfl, rfl, rfl, rfl, rfl⟩
  · intro p up n hps hn hrange hq ht
    have hv : validateSearchParams p
        = Except.error "Page size must be between 1 and 50" := by
      simp only [validateSearchParams, hps]
      rw [if_neg (by simp [hq, ht])]
      rw [if_pos]
      refine ⟨by simp [jsTruthyInt, hps, hn], by simpa [hps] using hrange⟩
    constructor <;> simp [searchOpenverseTS, hv]
  · intro p hq ht hps hpage
    simp only [validateSearchParams, hps]
    rw [if_neg (by simp [hq, ht])]
    rw [if_neg (by simp [jsTruthyInt])]
    rcases hpage with h | h
    · rw [if_neg (by simp [h])]
    · rw [if_neg (by simp; intro _; omega)]

/-- C4 witness: with all optional parameters absent the TypeScript client
sends page_size 20 and page 1; with pageSize 100 it errors and sends
nothing. -/
theorem pagination_params_spec_witness :
    (∃ r, (searchOpenverseTS pOk (Upstream.ok 0 [])).2 = [r]
       ∧ r.page_size = pOk.pageSize.getD 20
       ∧ r.page = pOk.page.getD 1
       ∧ r.q = pOk.query
       ∧ r.mediaType = pOk.mediaType.getD MediaType.image)
    ∧ ((searchOpenverseTS p100 (Upstream.ok 0 [])).1
        = Except.error ⟨"Page size must be between 1 and 50", none⟩
       ∧ (searchOpenverseTS p100 (Upstream.ok 0 [])).2 = []) :=
  ⟨pagination_params_spec.2.1 pOk (Upstream.ok 0 []) rfl,
   pagination_params_spec.2.2.1 p100 (Upstream.ok 0 []) 100 rfl (by decide)
     (Or.inr (by decide)) (by decide) (by decide)⟩

/-- C5: no read path returns a password: a successful login body carries
exactly the keys id, name, email; a successful register body likewise;
the default scope of the User model excludes the password attribute, and
both profile reads select only non-password columns. -/
theorem password_never_exposed :
    (∀ (users : List UserRow) (cmp : String → String → Bool) (email pw : String)
       (tok : AuthToken) (flds : List (String × String)),
       login users cmp email pw = LoginResult.success tok flds →
       flds.map Prod.fst = ["id", "name", "email"]
       ∧ "password" ∉ flds.map Prod.fst
       ∧ "passwordHash" ∉ flds.map Prod.fst)
    ∧ (∀ (users : List UserRow) (bhash : String → String) (v : Bool)
       (name email pw : String) (newId : Nat) (tok : AuthToken)
       (flds : List (String × String)) (users2 : List UserRow),
       register users bhash v name email pw newId
         = (RegisterResult.created tok flds, users2) →
       flds.map Prod.fst = ["id", "name", "email"]
       ∧ "password" ∉ flds.map Prod.fst
       ∧ "passwordHash" ∉ flds.map Prod.fst)
    ∧ ("password" ∉ defaultScopeAttributes ∧ "passwordHash" ∉ defaultScopeAttributes)
    ∧ ("password" ∉ profileAttributesTS ∧ "passwordHash" ∉ profileAttributesTS)
    ∧ ("password" ∉ profileSelectJS ∧ "passwordHash" ∉ profileSelectJS) := by
  refine ⟨?_, ?_, by decide, by decide, by decide⟩
  · intro users cmp email pw tok flds h
    simp only [login] at h
    split at h
    · simp at h
    · split at h
      · simp at h
      · split at h
        · injection h with h1 h2
          subst h2
          exact ⟨rfl, by simp [publicUserFields], by simp [publicUserFields]⟩
        · simp at h
  · intro users bhash v name email pw newId tok flds users2 h
    simp only [register] at h
    split at h
    · simp at h
    · split at h
      · simp at h
      · rw [Prod.mk.injEq] at h
        obtain ⟨hc, _⟩ := h
        injection hc with h1 h2
        subst h2
        exact ⟨rfl, by simp [publicUserFields], by simp [publicUserFields]⟩

/-- C5 witness: a concrete successful login returns only the id, name and
email keys. -/
theorem password_never_exposed_witness :
    (publicUserFields user0).map Prod.fst = ["id", "name", "email"]
    ∧ "password" ∉ (publicUserFields user0).map Prod.fst
    ∧ "passwordHash" ∉ (publicUserFields user0).map Prod.fst :=
  password_never_exposed.1 [user0] strEqCompare "alice@example.com" "hashedpw"
    ⟨1, "alice@example.com", 3600⟩ (publicUserFields user0) (by decide)

/-- C6: for a well-formed login attempt, an unknown email or a failed
bcrypt comparison yields the 401 invalid-credentials result with no
token, while a successful comparison yields a token whose claims are
exactly the id and email of the matched user with a one-hour expiry,
together with a sanitized user object carrying no password field. -/
theorem login_contract (users : List UserRow) (cmp : String → String → Bool)
    (email pw : String) (he : email ≠ "") (hp : pw ≠ "") :
    (findOneByEmail users email = none →
       login users cmp email pw = LoginResult.invalidCredentials)
    ∧ (∀ u, findOneByEmail users email = some u →
        (cmp pw u.password = false →
           login users cmp email pw = LoginResult.invalidCredentials)
        ∧ (cmp pw u.password = true →
           login users cmp email pw
             = LoginResult.success ⟨u.id, u.email, 3600⟩ (publicUserFields u)
           ∧ "password" ∉ (publicUserFields u).map Prod.fst)) := by
  have hcond : ¬(email = "" ∨ pw = "") := by
    intro hor
    cases hor with
    | inl h => exact he h
    | inr h => exact hp h
  refine ⟨?_, ?_⟩
  · intro hnone
    simp [login, hcond, hnone]
  · intro u hu
    refine ⟨?_, ?_⟩
    · intro hc
      simp [login, hcond, hu, hc]
    · intro hc
      exact ⟨by simp [login, hcond, hu, hc], by simp [publicUserFields]⟩

/-- C6 witness: with the sample user, a wrong password yields the 401
invalid-credentials result. -/
theorem login_contract_witness :
    login [user0] strEqCompare "alice@example.com" "wrong"
      = LoginResult.invalidCredentials :=
  ((login_contract [user0] strEqCompare "alice@example.com" "wrong"
      (by decide) (by decide)).2 user0 (by decide)).1 (by decide)
